import Mathlib

/-!
Verification of the forecasting-and-reliability engine of the Aarhus
retention model (`src/notebooks/forecast-script.py`).

The two core functions, `generate_forecast_table` and
`assess_forecast_reliability`, are shallowly embedded below.  Python
floats are idealised as rationals (`ℚ`); the IEEE special values that the
script can actually produce (`np.inf` from the coefficient-of-variation
branch, `inf`/`nan` from pandas division by a zero forecast) are made
explicit by the carrier type `PyVal`.  `np.sqrt` returns irrational
values, so the embedding is parametric in the square-root routine
`sq : ℚ → ℚ`; every theorem below holds for an arbitrary `sq` (where a
sign condition is needed it appears as a hypothesis satisfied by the real
square root).  Python's `round` (and `pandas.round`) use round-half-to-even,
embedded as `roundHalfEven`.
-/

namespace Forecast

/-- Carrier for a Python/numpy float value that may be one of the IEEE
special values the script produces: a finite rational, `inf`, `-inf`, or
`nan`. -/
inductive PyVal : Type
  | fin (q : ℚ)
  | inf
  | ninf
  | nan
deriving DecidableEq

/-- Floor of a rational, computed directly with flooring integer
division so that concrete witnesses evaluate inside the kernel. -/
def qfloor (q : ℚ) : ℤ := q.num.fdiv (q.den : ℤ)

/-- Python's builtin `round(x)` (also `np.round`): round half to even,
returning an integer. -/
def roundHalfEven (q : ℚ) : ℤ :=
  let n := qfloor q
  let r := q - (n : ℚ)
  if r < 1/2 then n
  else if 1/2 < r then n + 1
  else if n % 2 = 0 then n else n + 1

/-- Python's `round(x, 1)`: round half to even at one decimal place. -/
def round1 (q : ℚ) : ℚ := (roundHalfEven (q * 10) : ℚ) / 10

/-- Python's `round(x, 3)`: round half to even at three decimal places. -/
def round3 (q : ℚ) : ℚ := (roundHalfEven (q * 1000) : ℚ) / 1000

/-- `round(v, 1)` lifted to `PyVal`: Python's `round` with an `ndigits`
argument maps `inf`, `-inf` and `nan` to themselves. -/
def pvRound1 : PyVal → PyVal
  | .fin q => .fin (round1 q)
  | .inf => .inf
  | .ninf => .ninf
  | .nan => .nan

/-- `round(v, 3)` lifted to `PyVal`. -/
def pvRound3 : PyVal → PyVal
  | .fin q => .fin (round3 q)
  | .inf => .inf
  | .ninf => .ninf
  | .nan => .nan

/-- One historical dataframe: a `Year` column and named value columns.
A missing value (pandas `NaN` detected by `isnull`) is `none`. -/
structure DataFrame where
  years : List ℤ
  cols : List (String × List (Option ℚ))
deriving DecidableEq

/-- Column access `df[column]`; the script only reads columns that the
caller listed, so a missing name degenerates to the empty column. -/
def getCol (df : DataFrame) (c : String) : List (Option ℚ) :=
  (df.cols.lookup c).getD []

/-- `df[column].isnull().any()`. -/
def hasMissing (l : List (Option ℚ)) : Bool := l.any (·.isNone)

/-- Values of a column on the code path after the null check has passed,
where every entry is `some`; the default is never consulted there. -/
def stripMissing (l : List (Option ℚ)) : List ℚ := l.map (·.getD 0)

/-- Points `(Year, value)` fed to the linear model for one column. -/
def ptsOf (df : DataFrame) (c : String) : List (ℤ × ℚ) :=
  df.years.zip (stripMissing (getCol df c))

/-- `df['Year'].max()` for a nonempty column. -/
def listMax (l : List ℤ) : ℤ := l.foldl max (l.headD 0)

/-- `max([df['Year'].max() for df in historical_dfs.values()])`. -/
def lastYearOf (dfs : List (String × DataFrame)) : ℤ :=
  listMax (dfs.map fun p => listMax p.2.years)

/-- Diagnostics of one fitted column: slope and intercept of the
least-squares line, MAE, CV, R² and MAPE, exactly the quantities the
script computes before its forecast loop. -/
structure FitStats where
  slope : ℚ
  intercept : ℚ
  mae : ℚ
  cv : PyVal
  r2 : PyVal
  mape : Option ℚ
deriving DecidableEq

/-- `np.mean` of the value column: `mean_value` at source line 114. -/
def meanY (pts : List (ℤ × ℚ)) : ℚ :=
  (pts.map Prod.snd).sum / (pts.length : ℚ)

/-- Embedding of the per-column statistics block
(`model.fit` … `mape`, source lines 99–127).  `LinearRegression.fit` is
ordinary least squares; for a degenerate design (all years equal, e.g. a
single point) `lstsq` returns the minimum-norm solution, slope `0`, which
coincides with the `ℚ` convention `x / 0 = 0` used here.  `model.score`
is sklearn's `r2_score`: it returns `nan` (with an
`UndefinedMetricWarning`) for fewer than 2 samples, else
`1 - ss_res/ss_tot`, and when `ss_tot = 0` it returns `1.0` for a perfect
fit and `0.0` otherwise.  `np.std` is the population standard deviation,
the square root of the mean squared deviation, taken through the abstract
routine `sq`. -/
def fitStats (sq : ℚ → ℚ) (pts : List (ℤ × ℚ)) : FitStats :=
  let n : ℚ := pts.length
  let xs : List ℚ := pts.map (fun p => (p.1 : ℚ))
  let ys : List ℚ := pts.map Prod.snd
  let xbar := xs.sum / n
  let ybar := meanY pts
  let sxx := (xs.map (fun x => (x - xbar) ^ 2)).sum
  let sxy := (pts.map (fun p => ((p.1 : ℚ) - xbar) * (p.2 - ybar))).sum
  let slope := sxy / sxx
  let intercept := ybar - slope * xbar
  let preds := xs.map (fun x => slope * x + intercept)
  let resid := (ys.zip preds).map (fun p => p.1 - p.2)
  let mae := (resid.map (fun d => |d|)).sum / n
  let variance := (ys.map (fun y => (y - ybar) ^ 2)).sum / n
  let cv : PyVal := if ybar ≠ 0 then .fin (sq variance / ybar * 100) else .inf
  let ssRes := (resid.map (fun d => d ^ 2)).sum
  let ssTot := (ys.map (fun y => (y - ybar) ^ 2)).sum
  let r2 : PyVal :=
    if pts.length < 2 then .nan
    else if ssTot = 0 then (if ssRes = 0 then .fin 1 else .fin 0)
    else .fin (1 - ssRes / ssTot)
  let valid := (ys.zip preds).filter (fun p => decide (p.1 ≠ 0))
  let mape : Option ℚ :=
    if valid.length = 0 then none
    else some ((valid.map (fun p => |(p.1 - p.2) / p.1|)).sum / valid.length * 100)
  ⟨slope, intercept, mae, cv, r2, mape⟩

/-- `model.predict([[year]])[0]`: evaluate the fitted line. -/
def forecastValue (f : FitStats) (year : ℤ) : ℚ :=
  f.slope * (year : ℚ) + f.intercept

/-- Uncertainty of one forecast row (source lines 137–150): base
`mae * sqrt(years_out)`, capped at 50 % of `|forecast_value|`, then for
`|forecast_value| < 1000` floored at 50 units. -/
def uncertaintyFor (sq : ℚ → ℚ) (mae fv : ℚ) (k : ℕ) : ℚ :=
  let uncertainty_factor := sq (k : ℚ)
  let uncertainty := mae * uncertainty_factor
  let max_uncertainty := |fv| * (50 / 100)
  let uncertainty := min uncertainty max_uncertainty
  if |fv| < 1000 then max uncertainty 50 else uncertainty

/-- One row of the forecast table.  `Forecast` and `Uncertainty (±)` are
stored as the integers Python's `round` returns; `CV (%)` and `R²` are
included at the script's default flag values. -/
structure Row where
  year : ℤ
  category : String
  metric : String
  forecast : ℤ
  uncertainty : ℤ
  cv : PyVal
  r2 : PyVal
  mape : Option ℚ
deriving DecidableEq

/-- Construction of one `result_row` (source lines 130–171) for horizon
step `k` at a given forecast year. -/
def resultRow (sq : ℚ → ℚ) (cat col : String) (f : FitStats) (year : ℤ) (k : ℕ) : Row :=
  let fv := forecastValue f year
  { year := year
    category := cat
    metric := col
    forecast := roundHalfEven fv
    uncertainty := roundHalfEven (uncertaintyFor sq f.mae fv k)
    cv := pvRound1 f.cv
    r2 := pvRound3 f.r2
    mape := f.mape.map round1 }

/-- Body of the inner loop of `generate_forecast_table` for one
`(category, column)` pair: skip the column when it has a missing value
(source lines 96–97), otherwise fit once and emit one row per forecast
year, the `i`-th forecast year being `lastYear + 1 + i` at horizon step
`i + 1` (source lines 129–171). -/
def pairRows (sq : ℚ → ℚ) (lastYear : ℤ) (cat col : String) (df : DataFrame)
    (H : ℕ) : List Row :=
  if hasMissing (getCol df col) then []
  else
    let f := fitStats sq (ptsOf df col)
    (List.range H).map fun i : ℕ => resultRow sq cat col f (lastYear + 1 + (i : ℤ)) (i + 1)

/-- The unsorted `results` list built by the nested loops of
`generate_forecast_table`. -/
def resultsOf (sq : ℚ → ℚ) (dfs : List (String × DataFrame))
    (targets : String → List String) (H : ℕ) : List Row :=
  let lastYear := lastYearOf dfs
  dfs.flatMap fun p =>
    (targets p.1).flatMap fun col => pairRows sq lastYear p.1 col p.2 H

/-- Sort key of `sort_values(['Year', 'Category', 'Metric'])`. -/
def rowLE (a b : Row) : Prop :=
  a.year < b.year ∨ (a.year = b.year ∧
    (a.category < b.category ∨ (a.category = b.category ∧ a.metric ≤ b.metric)))

instance : DecidableRel rowLE := fun a b => by
  unfold rowLE; infer_instance

/-- Embedding of `generate_forecast_table` (default flags): the nested
loops build `results`, then the table is sorted by
`(Year, Category, Metric)`. -/
def generate_forecast_table (sq : ℚ → ℚ) (dfs : List (String × DataFrame))
    (targets : String → List String) (H : ℕ) : List Row :=
  List.insertionSort rowLE (resultsOf sq dfs targets H)

/-- Pandas float division `(uncertainty / |forecast|) * 100` on the stored
integer columns: division of a nonzero numerator by zero yields a signed
infinity, `0 / 0` yields `nan`. -/
def pvDivPct (u f : ℤ) : PyVal :=
  if f = 0 then
    if u = 0 then .nan else if 0 < u then .inf else .ninf
  else .fin ((u : ℚ) / |(f : ℚ)| * 100)

/-- Numpy comparison `v <= c` on a float column entry: `nan` compares
false, `-inf` true, `inf` false. -/
def pvLe (v : PyVal) (c : ℚ) : Bool :=
  match v with
  | .fin q => decide (q ≤ c)
  | .inf => false
  | .ninf => true
  | .nan => false

/-- Numpy comparison `v > c`: `nan` compares false, `inf` true. -/
def pvGt (v : PyVal) (c : ℚ) : Bool :=
  match v with
  | .fin q => decide (c < q)
  | .inf => true
  | .ninf => false
  | .nan => false

/-- Numpy comparison `v >= c` on a float column entry (used for the `R²`
column, which can hold `nan`): `nan` compares false. -/
def pvGe (v : PyVal) (c : ℚ) : Bool :=
  match v with
  | .fin q => decide (c ≤ q)
  | .inf => true
  | .ninf => false
  | .nan => false

/-- `np.select(conditions, categories, default)` at one row: first
condition that holds wins, otherwise the default. -/
def npSelect : List (Bool × String) → String → String
  | [], d => d
  | (c, s) :: rest, d => if c then s else npSelect rest d

/-- The ordered condition/category list of `assess_forecast_reliability`
(source lines 201–215) for one row, applied through `np.select` with
default `'Unknown'`. -/
def tierOf (u : PyVal) (r2 : PyVal) : String :=
  npSelect
    [(pvLe u 10 && pvGe r2 (0.9 : ℚ), "High Reliability"),
     (pvLe u 25 && pvGe r2 (0.7 : ℚ), "Good Reliability"),
     (pvLe u 40 && pvGe r2 (0.5 : ℚ), "Moderate Reliability"),
     (pvLe u 60, "Low Reliability"),
     (pvGt u 60, "Very Low Reliability")]
    "Unknown"

/-- A forecast row augmented by `assess_forecast_reliability` with
`Uncertainty (%)` and `Reliability`. -/
structure RelRow extends Row where
  uncPct : PyVal
  reliability : String
deriving DecidableEq

/-- Embedding of `assess_forecast_reliability`: per row, the percentage
`Uncertainty (±) / |Forecast| * 100` is computed from the stored integer
columns, the tier is selected from the unrounded percentage, and the
emitted percentage column is rounded to one decimal afterwards. -/
def assess_forecast_reliability (t : List Row) : List RelRow :=
  t.map fun r =>
    let pct := pvDivPct r.uncertainty r.forecast
    { r with uncPct := pvRound1 pct, reliability := tierOf pct r.r2 }

/-! Spec-side definitions, written from the specification's and claims'
wording, to be compared with the source-side definitions above. -/

/-- Modelled from the spec: step 1 of the uncertainty policy, "Base
uncertainty = MAE × sqrt(horizon step k)". -/
def baseStep (sq : ℚ → ℚ) (mae : ℚ) (k : ℕ) : ℚ := mae * sq (k : ℚ)

/-- Modelled from the spec: step 2, "uncertainty is clamped to at most
50 % of the absolute point-forecast value". -/
def capStep (fv u : ℚ) : ℚ := min u (|fv| * (50 / 100))

/-- Modelled from the spec: step 3, "if the absolute point-forecast value
is below 1000, uncertainty is raised to at least 50". -/
def floorStep (fv u : ℚ) : ℚ := if |fv| < 1000 then max u 50 else u

/-- Modelled from the claim: the ordered reliability rule table,
first match wins, with "otherwise Very Low Reliability". -/
def specTier (u r2 : ℚ) : String :=
  if u ≤ 10 ∧ (0.9 : ℚ) ≤ r2 then "High Reliability"
  else if u ≤ 25 ∧ (0.7 : ℚ) ≤ r2 then "Good Reliability"
  else if u ≤ 40 ∧ (0.5 : ℚ) ≤ r2 then "Moderate Reliability"
  else if u ≤ 60 then "Low Reliability"
  else "Very Low Reliability"

/-! Basic lemmas about the embedding. -/

/-- The inline uncertainty computation of the forecast loop is exactly
the spec's three-step pipeline applied in the order base, cap, floor. -/
lemma uncertaintyFor_eq_steps (sq : ℚ → ℚ) (mae fv : ℚ) (k : ℕ) :
    uncertaintyFor sq mae fv k = floorStep fv (capStep fv (baseStep sq mae k)) := rfl

lemma mem_pairRows {sq : ℚ → ℚ} {LY : ℤ} {cat col : String} {df : DataFrame}
    {H : ℕ} {r : Row} :
    r ∈ pairRows sq LY cat col df H ↔
      hasMissing (getCol df col) = false ∧
      ∃ i : ℕ, i < H ∧
        r = resultRow sq cat col (fitStats sq (ptsOf df col)) (LY + 1 + (i : ℤ)) (i + 1) := by
  unfold pairRows
  cases h : hasMissing (getCol df col) <;>
    simp [h, List.mem_map, List.mem_range, eq_comm]

lemma mem_resultsOf {sq : ℚ → ℚ} {dfs : List (String × DataFrame)}
    {targets : String → List String} {H : ℕ} {r : Row} :
    r ∈ resultsOf sq dfs targets H ↔
      ∃ p ∈ dfs, ∃ col ∈ targets p.1, r ∈ pairRows sq (lastYearOf dfs) p.1 col p.2 H := by
  simp [resultsOf, List.mem_flatMap]

lemma mem_generate {sq : ℚ → ℚ} {dfs : List (String × DataFrame)}
    {targets : String → List String} {H : ℕ} {r : Row} :
    r ∈ generate_forecast_table sq dfs targets H ↔ r ∈ resultsOf sq dfs targets H :=
  (List.perm_insertionSort _ _).mem_iff

lemma pairRows_fields {sq : ℚ → ℚ} {LY : ℤ} {cat col : String} {df : DataFrame}
    {H : ℕ} {r : Row} (h : r ∈ pairRows sq LY cat col df H) :
    r.category = cat ∧ r.metric = col := by
  obtain ⟨-, i, -, rfl⟩ := mem_pairRows.1 h
  exact ⟨rfl, rfl⟩

/-- Row predicate selecting one `(category, metric)` pair of the table. -/
def pairMatch (cat col : String) (r : Row) : Bool :=
  r.category == cat && r.metric == col

lemma filter_pairRows_self {sq : ℚ → ℚ} {LY : ℤ} {cat col : String} {df : DataFrame}
    {H : ℕ} :
    (pairRows sq LY cat col df H).filter (pairMatch cat col) =
      pairRows sq LY cat col df H :=
  List.filter_eq_self.2 fun r hr => by
    obtain ⟨hc, hm⟩ := pairRows_fields hr
    simp [pairMatch, hc, hm]

lemma filter_pairRows_nil {sq : ℚ → ℚ} {LY : ℤ} {cat col c' col' : String}
    {df : DataFrame} {H : ℕ} (h : c' ≠ cat ∨ col' ≠ col) :
    (pairRows sq LY c' col' df H).filter (pairMatch cat col) = [] :=
  List.filter_eq_nil_iff.2 fun r hr => by
    obtain ⟨hc, hm⟩ := pairRows_fields hr
    rcases h with h | h <;> simp [pairMatch, hc, hm, h]

lemma filter_flatMap_cols {sq : ℚ → ℚ} {LY : ℤ} {H : ℕ} {cat : String}
    {df : DataFrame} {col : String} (cols : List String)
    (hnd : cols.Nodup) (hmem : col ∈ cols) :
    (cols.flatMap fun c => pairRows sq LY cat c df H).filter (pairMatch cat col) =
      pairRows sq LY cat col df H := by
  induction cols with
  | nil => cases hmem
  | cons c rest ih =>
    rw [List.flatMap_cons, List.filter_append]
    rcases List.mem_cons.1 hmem with rfl | hrest
    · rw [filter_pairRows_self]
      have hnil : (rest.flatMap fun c => pairRows sq LY cat c df H).filter
          (pairMatch cat col) = [] := by
        refine List.filter_eq_nil_iff.2 fun r hr => ?_
        obtain ⟨c', hc', hr'⟩ := List.mem_flatMap.1 hr
        have hne : c' ≠ col := fun e => (List.nodup_cons.1 hnd).1 (e ▸ hc')
        obtain ⟨hcat, hmet⟩ := pairRows_fields hr'
        simp [pairMatch, hcat, hmet, hne]
      rw [hnil, List.append_nil]
    · have hcne : c ≠ col := by
        rintro rfl
        exact (List.nodup_cons.1 hnd).1 hrest
      rw [filter_pairRows_nil (Or.inr hcne), List.nil_append,
        ih (List.nodup_cons.1 hnd).2 hrest]

lemma flatMap_category {sq : ℚ → ℚ} {LY : ℤ} {H : ℕ}
    {targets : String → List String} {l : List (String × DataFrame)} {r : Row}
    (h : r ∈ l.flatMap fun p => (targets p.1).flatMap fun c => pairRows sq LY p.1 c p.2 H) :
    r.category ∈ l.map Prod.fst := by
  obtain ⟨p, hp, hin⟩ := List.mem_flatMap.1 h
  obtain ⟨c, hc, hr⟩ := List.mem_flatMap.1 hin
  exact List.mem_map.2 ⟨p, hp, ((pairRows_fields hr).1).symm⟩

lemma filter_resultsOf {sq : ℚ → ℚ} {dfs : List (String × DataFrame)}
    {targets : String → List String} {H : ℕ} {cat col : String} {df : DataFrame}
    (hk : (dfs.map Prod.fst).Nodup) (hc : (targets cat).Nodup)
    (hmem : (cat, df) ∈ dfs) (hcol : col ∈ targets cat) :
    (resultsOf sq dfs targets H).filter (pairMatch cat col) =
      pairRows sq (lastYearOf dfs) cat col df H := by
  simp only [resultsOf]
  generalize lastYearOf dfs = LY
  induction dfs with
  | nil => cases hmem
  | cons p rest ih =>
    rw [List.flatMap_cons, List.filter_append]
    by_cases hpc : p.1 = cat
    · have hpd : p = (cat, df) := by
        rcases List.mem_cons.1 hmem with h | h
        · exact h.symm
        · exact absurd (hpc ▸ List.mem_map.2 ⟨(cat, df), h, rfl⟩)
            ((List.nodup_cons.1 hk).1)
      subst hpd
      rw [filter_flatMap_cols (targets cat) hc hcol]
      have hnil : (rest.flatMap fun p =>
          (targets p.1).flatMap fun c => pairRows sq LY p.1 c p.2 H).filter
          (pairMatch cat col) = [] := by
        refine List.filter_eq_nil_iff.2 fun r hr => ?_
        have hcatmem := flatMap_category hr
        have hne : r.category ≠ cat := by
          rintro rfl
          exact (List.nodup_cons.1 hk).1 hcatmem
        simp [pairMatch, hne]
      rw [hnil, List.append_nil]
    · have hnil : ((targets p.1).flatMap fun c => pairRows sq LY p.1 c p.2 H).filter
          (pairMatch cat col) = [] := by
        refine List.filter_eq_nil_iff.2 fun r hr => ?_
        obtain ⟨c', hc', hr'⟩ := List.mem_flatMap.1 hr
        obtain ⟨hcat, hmet⟩ := pairRows_fields hr'
        simp [pairMatch, hcat, hmet, hpc]
      have hmem' : (cat, df) ∈ rest := by
        rcases List.mem_cons.1 hmem with h | h
        · exact absurd (congrArg Prod.fst h.symm) hpc
        · exact h
      rw [hnil, List.nil_append, ih (List.nodup_cons.1 hk).2 hmem']

lemma uncertaintyFor_floor {fv : ℚ} (sq : ℚ → ℚ) (mae : ℚ) (k : ℕ)
    (h : |fv| < 1000) : 50 ≤ uncertaintyFor sq mae fv k := by
  unfold uncertaintyFor
  simp only [h, if_true]
  exact le_max_right _ _

lemma uncertaintyFor_cap {fv : ℚ} (sq : ℚ → ℚ) (mae : ℚ) (k : ℕ)
    (h : 100 ≤ |fv|) : uncertaintyFor sq mae fv k ≤ |fv| * (50 / 100) := by
  unfold uncertaintyFor
  split_ifs with h1
  · exact max_le (min_le_right _ _) (by linarith)
  · exact min_le_right _ _

/-! Claim theorems. -/

/-- C2: the reliability tier is a deterministic, total function of the
pair (uncertainty as a percentage of the absolute forecast, R²), computed
first-match-wins over the ordered rule list: `≤10 ∧ R² ≥ 0.9` High,
`≤25 ∧ R² ≥ 0.7` Good, `≤40 ∧ R² ≥ 0.5` Moderate, `≤60` Low, otherwise
Very Low.  The source's `np.select` cascade agrees with the claim's rule
table on every (finite) percentage/R² pair. -/
theorem tier_rule_table (u r2 : ℚ) :
    tierOf (PyVal.fin u) (PyVal.fin r2) = specTier u r2 := by
  simp only [tierOf, npSelect, specTier, pvLe, pvGt, pvGe, Bool.and_eq_true,
    decide_eq_true_eq]
  split_ifs <;> first
    | rfl
    | linarith

/-- C7: a (group, column) pair whose column contains a missing value
emits no row (count 0) and raises no error, while a pair without missing
values emits its rows (count `H`); the two cases of the same run. -/
theorem missing_column_skipped (sq : ℚ → ℚ) (dfs : List (String × DataFrame))
    (targets : String → List String) (H : ℕ) (cat col : String) (df : DataFrame)
    (hk : (dfs.map Prod.fst).Nodup) (hc : (targets cat).Nodup)
    (hmem : (cat, df) ∈ dfs) (hcol : col ∈ targets cat) :
    (generate_forecast_table sq dfs targets H).countP (pairMatch cat col) =
      if hasMissing (getCol df col) then 0 else H := by
  rw [generate_forecast_table, (List.perm_insertionSort rowLE _).countP_eq,
    List.countP_eq_length_filter, filter_resultsOf hk hc hmem hcol]
  unfold pairRows
  cases h : hasMissing (getCol df col) <;> simp [h]

/-- C10: the forecast years are global: every non-skipped (group, column)
pair contributes exactly `H` rows, the `i`-th at year
`lastYearOf dfs + 1 + i` (so `lastYearOf dfs + 1`, horizon step 1, comes
first), where `lastYearOf` is the maximum year over all groups. -/
theorem forecast_years_are_global (sq : ℚ → ℚ) (dfs : List (String × DataFrame))
    (targets : String → List String) (H : ℕ) (cat col : String) (df : DataFrame)
    (hk : (dfs.map Prod.fst).Nodup) (hc : (targets cat).Nodup)
    (hmem : (cat, df) ∈ dfs) (hcol : col ∈ targets cat)
    (hnm : hasMissing (getCol df col) = false) :
    ((generate_forecast_table sq dfs targets H).filter (pairMatch cat col)).Perm
      ((List.range H).map fun i : ℕ =>
        resultRow sq cat col (fitStats sq (ptsOf df col))
          (lastYearOf dfs + 1 + (i : ℤ)) (i + 1)) := by
  have hp := (List.perm_insertionSort rowLE (resultsOf sq dfs targets H)).filter
    (pairMatch cat col)
  rw [filter_resultsOf hk hc hmem hcol] at hp
  simpa [generate_forecast_table, pairRows, hnm] using hp

/-- C1: every forecast row's uncertainty magnitude is the base value
`MAE * sqrt(k)` (with `k` the 1-based horizon step, `year = last year + k`),
then clamped to at most 50 % of the absolute point forecast, then — the
floor applied last — raised to at least 50 whenever the absolute point
forecast is below 1000, before the presentation rounding. -/
theorem uncertainty_base_cap_floor (sq : ℚ → ℚ) (dfs : List (String × DataFrame))
    (targets : String → List String) (H : ℕ) (r : Row)
    (h : r ∈ generate_forecast_table sq dfs targets H) :
    ∃ p ∈ dfs, ∃ col ∈ targets p.1, ∃ k : ℕ, 1 ≤ k ∧ k ≤ H ∧
      r.year = lastYearOf dfs + (k : ℤ) ∧
      r.uncertainty = roundHalfEven
        (floorStep (forecastValue (fitStats sq (ptsOf p.2 col)) r.year)
          (capStep (forecastValue (fitStats sq (ptsOf p.2 col)) r.year)
            (baseStep sq (fitStats sq (ptsOf p.2 col)).mae k))) := by
  obtain ⟨p, hp, col, hcol, hpr⟩ := mem_resultsOf.1 (mem_generate.1 h)
  obtain ⟨hnm, i, hiH, rfl⟩ := mem_pairRows.1 hpr
  refine ⟨p, hp, col, hcol, i + 1, Nat.le_add_left 1 i, hiH, ?_, ?_⟩
  · show lastYearOf dfs + 1 + (i : ℤ) = lastYearOf dfs + ((i : ℤ) + 1)
    ring
  · rw [← uncertaintyFor_eq_steps]
    rfl

/-- C6: every emitted point forecast is the fitted least-squares line
evaluated at the row's year, `slope * year + intercept`, with no
adjustment other than the presentation rounding. -/
theorem forecast_is_line_value (sq : ℚ → ℚ) (dfs : List (String × DataFrame))
    (targets : String → List String) (H : ℕ) (r : Row)
    (h : r ∈ generate_forecast_table sq dfs targets H) :
    ∃ p ∈ dfs, ∃ col ∈ targets p.1, r.category = p.1 ∧ r.metric = col ∧
      r.forecast = roundHalfEven
        ((fitStats sq (ptsOf p.2 col)).slope * (r.year : ℚ) +
          (fitStats sq (ptsOf p.2 col)).intercept) := by
  obtain ⟨p, hp, col, hcol, hpr⟩ := mem_resultsOf.1 (mem_generate.1 h)
  obtain ⟨hnm, i, hiH, rfl⟩ := mem_pairRows.1 hpr
  exact ⟨p, hp, col, hcol, rfl, rfl, rfl⟩

/-- C3 (amended): for every forecast row, the uncertainty value placed in
the row is the pipeline value `uncertaintyFor`; that value is at least 50
whenever the absolute point forecast is below 1000, and it is at most
50 % of the absolute point forecast whenever the absolute point forecast
is at least 100 — but not in general, since for absolute forecasts below
100 the 50-unit floor exceeds the 50 % cap. -/
theorem uncertainty_bounds (sq : ℚ → ℚ) (dfs : List (String × DataFrame))
    (targets : String → List String) (H : ℕ) (r : Row)
    (h : r ∈ generate_forecast_table sq dfs targets H) :
    ∃ p ∈ dfs, ∃ col ∈ targets p.1, ∃ k : ℕ, 1 ≤ k ∧ k ≤ H ∧
      r.uncertainty = roundHalfEven (uncertaintyFor sq (fitStats sq (ptsOf p.2 col)).mae
        (forecastValue (fitStats sq (ptsOf p.2 col)) r.year) k) ∧
      (|forecastValue (fitStats sq (ptsOf p.2 col)) r.year| < 1000 →
        50 ≤ uncertaintyFor sq (fitStats sq (ptsOf p.2 col)).mae
          (forecastValue (fitStats sq (ptsOf p.2 col)) r.year) k) ∧
      (100 ≤ |forecastValue (fitStats sq (ptsOf p.2 col)) r.year| →
        uncertaintyFor sq (fitStats sq (ptsOf p.2 col)).mae
            (forecastValue (fitStats sq (ptsOf p.2 col)) r.year) k ≤
          |forecastValue (fitStats sq (ptsOf p.2 col)) r.year| * (50 / 100)) := by
  obtain ⟨p, hp, col, hcol, hpr⟩ := mem_resultsOf.1 (mem_generate.1 h)
  obtain ⟨hnm, i, hiH, rfl⟩ := mem_pairRows.1 hpr
  exact ⟨p, hp, col, hcol, i + 1, Nat.le_add_left 1 i, hiH, rfl,
    fun hf => uncertaintyFor_floor sq _ _ hf,
    fun hf => uncertaintyFor_cap sq _ _ hf⟩

lemma fitStats_cv_zero_mean (sq : ℚ → ℚ) (pts : List (ℤ × ℚ))
    (h : meanY pts = 0) : (fitStats sq pts).cv = PyVal.inf := by
  simp [fitStats, h]

/-- C8 (amended): for every forecast row whose historical series has mean
zero, the coefficient of variation emitted in the row is the numeric
positive infinity `np.inf` carried through `round(cv, 1)` — not an
explicit absent/sentinel value. -/
theorem zero_mean_cv_numeric_inf (sq : ℚ → ℚ) (dfs : List (String × DataFrame))
    (targets : String → List String) (H : ℕ) (r : Row)
    (h : r ∈ generate_forecast_table sq dfs targets H) :
    ∃ p ∈ dfs, ∃ col ∈ targets p.1, r.category = p.1 ∧ r.metric = col ∧
      (meanY (ptsOf p.2 col) = 0 → r.cv = PyVal.inf) := by
  obtain ⟨p, hp, col, hcol, hpr⟩ := mem_resultsOf.1 (mem_generate.1 h)
  obtain ⟨hnm, i, hiH, rfl⟩ := mem_pairRows.1 hpr
  refine ⟨p, hp, col, hcol, rfl, rfl, fun hm => ?_⟩
  show pvRound1 (fitStats sq (ptsOf p.2 col)).cv = PyVal.inf
  rw [fitStats_cv_zero_mean sq _ hm]
  rfl

/-- C4 (amended): a row whose stored forecast is exactly 0 (and whose
stored uncertainty is positive, as the 50-unit floor guarantees for every
builder row) gets `Uncertainty (%) = inf` — pandas float division, not an
undefined sentinel — and the `> 60` rule then fires, so its tier is
"Very Low Reliability", not "Unknown". -/
theorem zero_forecast_inf_very_low (t : List Row) (s : RelRow)
    (h : s ∈ assess_forecast_reliability t) (hf : s.toRow.forecast = 0)
    (hu : 0 < s.toRow.uncertainty) :
    s.uncPct = PyVal.inf ∧ s.reliability = "Very Low Reliability" := by
  obtain ⟨r, hr, rfl⟩ := List.mem_map.1 h
  have hf' : r.forecast = 0 := hf
  have hu' : 0 < r.uncertainty := hu
  have hpct : pvDivPct r.uncertainty r.forecast = PyVal.inf := by
    simp [pvDivPct, hf', hu', hu'.ne']
  constructor
  · show pvRound1 (pvDivPct r.uncertainty r.forecast) = PyVal.inf
    rw [hpct]
    rfl
  · show tierOf (pvDivPct r.uncertainty r.forecast) r.r2 = _
    rw [hpct]
    rfl

/-- C9: the builder stores `Forecast` and `Uncertainty (±)` already
rounded to integers, and the classifier computes `Uncertainty (%)` as
`round(uncertainty / |forecast| * 100, 1)` from those stored integers,
not from the unrounded model outputs. -/
theorem percent_from_rounded_integers (sq : ℚ → ℚ) (dfs : List (String × DataFrame))
    (targets : String → List String) (H : ℕ) (s : RelRow)
    (h : s ∈ assess_forecast_reliability (generate_forecast_table sq dfs targets H)) :
    ∃ p ∈ dfs, ∃ col ∈ targets p.1, ∃ k : ℕ, 1 ≤ k ∧ k ≤ H ∧
      s.toRow.forecast =
        roundHalfEven (forecastValue (fitStats sq (ptsOf p.2 col)) s.toRow.year) ∧
      s.toRow.uncertainty = roundHalfEven (uncertaintyFor sq (fitStats sq (ptsOf p.2 col)).mae
        (forecastValue (fitStats sq (ptsOf p.2 col)) s.toRow.year) k) ∧
      s.uncPct = pvRound1 (pvDivPct s.toRow.uncertainty s.toRow.forecast) := by
  obtain ⟨r, hr, rfl⟩ := List.mem_map.1 h
  obtain ⟨p, hp, col, hcol, hpr⟩ := mem_resultsOf.1 (mem_generate.1 hr)
  obtain ⟨hnm, i, hiH, rfl⟩ := mem_pairRows.1 hpr
  exact ⟨p, hp, col, hcol, i + 1, Nat.le_add_left 1 i, hiH, rfl, rfl, rfl⟩

lemma fitStats_single (sq : ℚ → ℚ) (yr : ℤ) (v : ℚ) :
    (fitStats sq [(yr, v)]).slope = 0 ∧ (fitStats sq [(yr, v)]).intercept = v := by
  constructor <;> simp [fitStats, meanY]

/-- C5 (amended): the builder performs no point-count check, so a series
with a single historical point is not skipped: it is fitted (minimum-norm
solution, slope 0 and intercept equal to the point's value) and produces
all `H` forecast rows, each with the constant forecast `round(v)`.  Only
a missing value causes a skip. -/
theorem short_series_not_skipped (sq : ℚ → ℚ) (name col : String) (yr : ℤ) (v : ℚ)
    (H : ℕ) (r : Row)
    (h : r ∈ generate_forecast_table sq [(name, ⟨[yr], [(col, [some v])]⟩)]
      (fun _ => [col]) H) :
    r.forecast = roundHalfEven v ∧
    (generate_forecast_table sq [(name, ⟨[yr], [(col, [some v])]⟩)]
      (fun _ => [col]) H).length = H := by
  constructor
  · obtain ⟨p, hp, c, hc, hpr⟩ := mem_resultsOf.1 (mem_generate.1 h)
    have hc' : c = col := by simpa using hc
    have hp' : p = (name, ⟨[yr], [(col, [some v])]⟩) := by simpa using hp
    rw [hc', hp'] at hpr
    obtain ⟨hnm, i, hiH, rfl⟩ := mem_pairRows.1 hpr
    have hpts : ptsOf (⟨[yr], [(col, [some v])]⟩ : DataFrame) col = [(yr, v)] := by
      simp [ptsOf, getCol, stripMissing]
    obtain ⟨hs, hi⟩ := fitStats_single sq yr v
    dsimp only [resultRow]
    rw [hpts]
    simp [forecastValue, hs, hi]
  · rw [generate_forecast_table, List.length_insertionSort]
    simp [resultsOf, pairRows, getCol, hasMissing]

/-! Concrete runs used to falsify the failed claims and to instantiate
the universally quantified theorems.  `sqId` stands in for `np.sqrt`
(the theorems above hold for every square-root routine; on these inputs
the MAE is 0 or the variance is what `cv` reads, so the choice is
immaterial to the facts checked). -/

def sqId : ℚ → ℚ := fun q => q

def tgM : String → List String := fun _ => ["m"]

def tgZ : String → List String := fun _ => ["z"]

def dfZeroCross : DataFrame := ⟨[2024, 2025], [("m", [some 2, some 1])]⟩

def dfsZeroCross : List (String × DataFrame) := [("A", dfZeroCross)]

def dfConst10 : DataFrame := ⟨[2024, 2025], [("m", [some 10, some 10])]⟩

def dfsConst10 : List (String × DataFrame) := [("A", dfConst10)]

def dfZeroMean : DataFrame := ⟨[2024, 2025], [("z", [some 50, some (-50)])]⟩

def dfsZeroMean : List (String × DataFrame) := [("A", dfZeroMean)]

def dfSingle : DataFrame := ⟨[2025], [("m", [some 7])]⟩

def dfTwoA : DataFrame := ⟨[2023, 2025], [("m", [some 1, some 3]), ("x", [some 1, none])]⟩

def dfTwoB : DataFrame := ⟨[2024], [("n", [some 4])]⟩

def dfsTwo : List (String × DataFrame) := [("A", dfTwoA), ("B", dfTwoB)]

def tgTwo : String → List String := fun c => if c = "A" then ["m", "x"] else ["n"]

set_option maxRecDepth 10000

/-- C3 counterexample: the constant-10 series yields the single row
(forecast 10, uncertainty 50), and 50 exceeds 50 % of |10| — the 50-unit
floor pushes the uncertainty above the claimed cap. -/
theorem cap_claim_fails_on_small_forecast :
    ((generate_forecast_table sqId dfsConst10 tgM 1).map fun r =>
      (r.forecast, r.uncertainty)) = [(10, 50)] ∧
    ¬((50 : ℚ) ≤ |(10 : ℚ)| * (50 / 100)) := by
  constructor
  · with_unfolding_all decide
  · with_unfolding_all decide

/-- C4 counterexample: a series whose fitted line crosses 0 at the
forecast year gives a row with forecast exactly 0, whose percentage is
the numeric infinity and whose tier is "Very Low Reliability", not
"Unknown". -/
theorem zero_forecast_not_unknown :
    ((assess_forecast_reliability (generate_forecast_table sqId dfsZeroCross tgM 1)).map
      fun s => (s.toRow.forecast, s.uncPct, s.reliability)) =
      [(0, PyVal.inf, "Very Low Reliability")] := by
  with_unfolding_all decide

/-- C5 counterexample: a series with a single historical point — fewer
than 2 — is not skipped: the builder emits its forecast row. -/
theorem single_point_series_emits_rows :
    generate_forecast_table sqId [("A", dfSingle)] tgM 1 =
      [⟨2026, "A", "m", 7, 50, PyVal.fin 0, PyVal.nan, some 0⟩] := by
  with_unfolding_all decide

/-- C8 counterexample: a zero-mean series (values 50 and −50, nonzero
variance) propagates `CV (%) = np.inf` — the numeric infinity — into the
emitted row, not an absent/sentinel value. -/
theorem zero_mean_cv_not_sentinel :
    meanY (ptsOf dfZeroMean "z") = 0 ∧
    ((generate_forecast_table sqId dfsZeroMean tgZ 1).map fun r => r.cv) =
      [PyVal.inf] := by
  constructor
  · with_unfolding_all decide
  · with_unfolding_all decide

def rowConst10 : Row := ⟨2026, "A", "m", 10, 50, PyVal.fin 0, PyVal.fin 1, some 0⟩

def relRowZero : RelRow :=
  ⟨⟨2026, "A", "m", 0, 50, PyVal.fin (167 / 10), PyVal.fin 1, some 0⟩, PyVal.inf,
    "Very Low Reliability"⟩

def rowSingle : Row := ⟨2026, "A", "m", 7, 50, PyVal.fin 0, PyVal.nan, some 0⟩

def rowZeroMean : Row := ⟨2026, "A", "z", -150, 50, PyVal.inf, PyVal.fin 1, some 0⟩

def relRowConst10 : RelRow := ⟨rowConst10, PyVal.fin 500, "Very Low Reliability"⟩

/-- Witness for C1 at a concrete run. -/
theorem uncertainty_base_cap_floor_w :
    rowConst10 ∈ generate_forecast_table sqId dfsConst10 tgM 1 ∧
    ∃ p ∈ dfsConst10, ∃ col ∈ tgM p.1, ∃ k : ℕ, 1 ≤ k ∧ k ≤ 1 ∧
      rowConst10.year = lastYearOf dfsConst10 + (k : ℤ) ∧
      rowConst10.uncertainty = roundHalfEven
        (floorStep (forecastValue (fitStats sqId (ptsOf p.2 col)) rowConst10.year)
          (capStep (forecastValue (fitStats sqId (ptsOf p.2 col)) rowConst10.year)
            (baseStep sqId (fitStats sqId (ptsOf p.2 col)).mae k))) :=
  have hm : rowConst10 ∈ generate_forecast_table sqId dfsConst10 tgM 1 := by
    with_unfolding_all decide
  ⟨hm, uncertainty_base_cap_floor sqId dfsConst10 tgM 1 rowConst10 hm⟩

/-- Witness for C3 (amended) at a concrete run. -/
theorem uncertainty_bounds_w :
    rowConst10 ∈ generate_forecast_table sqId dfsConst10 tgM 1 ∧
    ∃ p ∈ dfsConst10, ∃ col ∈ tgM p.1, ∃ k : ℕ, 1 ≤ k ∧ k ≤ 1 ∧
      rowConst10.uncertainty = roundHalfEven (uncertaintyFor sqId
        (fitStats sqId (ptsOf p.2 col)).mae
        (forecastValue (fitStats sqId (ptsOf p.2 col)) rowConst10.year) k) ∧
      (|forecastValue (fitStats sqId (ptsOf p.2 col)) rowConst10.year| < 1000 →
        50 ≤ uncertaintyFor sqId (fitStats sqId (ptsOf p.2 col)).mae
          (forecastValue (fitStats sqId (ptsOf p.2 col)) rowConst10.year) k) ∧
      (100 ≤ |forecastValue (fitStats sqId (ptsOf p.2 col)) rowConst10.year| →
        uncertaintyFor sqId (fitStats sqId (ptsOf p.2 col)).mae
            (forecastValue (fitStats sqId (ptsOf p.2 col)) rowConst10.year) k ≤
          |forecastValue (fitStats sqId (ptsOf p.2 col)) rowConst10.year| * (50 / 100)) :=
  have hm : rowConst10 ∈ generate_forecast_table sqId dfsConst10 tgM 1 := by
    with_unfolding_all decide
  ⟨hm, uncertainty_bounds sqId dfsConst10 tgM 1 rowConst10 hm⟩

/-- Witness for C4 (amended) at a concrete run. -/
theorem zero_forecast_inf_very_low_w :
    (relRowZero ∈ assess_forecast_reliability
        (generate_forecast_table sqId dfsZeroCross tgM 1) ∧
      relRowZero.toRow.forecast = 0 ∧ 0 < relRowZero.toRow.uncertainty) ∧
    relRowZero.uncPct = PyVal.inf ∧
    relRowZero.reliability = "Very Low Reliability" :=
  have h1 : relRowZero ∈ assess_forecast_reliability
      (generate_forecast_table sqId dfsZeroCross tgM 1) := by
    with_unfolding_all decide
  have h2 : relRowZero.toRow.forecast = 0 := by with_unfolding_all decide
  have h3 : 0 < relRowZero.toRow.uncertainty := by with_unfolding_all decide
  ⟨⟨h1, h2, h3⟩,
    zero_forecast_inf_very_low (generate_forecast_table sqId dfsZeroCross tgM 1)
      relRowZero h1 h2 h3⟩

/-- Witness for C5 (amended) at a concrete run. -/
theorem short_series_not_skipped_w :
    rowSingle ∈ generate_forecast_table sqId [("A", ⟨[2025], [("m", [some 7])]⟩)]
      (fun _ => ["m"]) 1 ∧
    rowSingle.forecast = roundHalfEven 7 ∧
    (generate_forecast_table sqId [("A", ⟨[2025], [("m", [some 7])]⟩)]
      (fun _ => ["m"]) 1).length = 1 :=
  have hm : rowSingle ∈ generate_forecast_table sqId
      [("A", ⟨[2025], [("m", [some 7])]⟩)] (fun _ => ["m"]) 1 := by
    with_unfolding_all decide
  ⟨hm, short_series_not_skipped sqId "A" "m" 2025 7 1 rowSingle hm⟩

/-- Witness for C6 at a concrete run. -/
theorem forecast_is_line_value_w :
    rowConst10 ∈ generate_forecast_table sqId dfsConst10 tgM 1 ∧
    ∃ p ∈ dfsConst10, ∃ col ∈ tgM p.1,
      rowConst10.category = p.1 ∧ rowConst10.metric = col ∧
      rowConst10.forecast = roundHalfEven
        ((fitStats sqId (ptsOf p.2 col)).slope * (rowConst10.year : ℚ) +
          (fitStats sqId (ptsOf p.2 col)).intercept) :=
  have hm : rowConst10 ∈ generate_forecast_table sqId dfsConst10 tgM 1 := by
    with_unfolding_all decide
  ⟨hm, forecast_is_line_value sqId dfsConst10 tgM 1 rowConst10 hm⟩

/-- Witness for C7 at a concrete run, covering both the missing-value
skip ("A", "x") and an emitting pair ("B", "n") of the same run. -/
theorem missing_column_skipped_w :
    ((dfsTwo.map Prod.fst).Nodup ∧ (tgTwo "A").Nodup ∧ (tgTwo "B").Nodup ∧
      ("A", dfTwoA) ∈ dfsTwo ∧ "x" ∈ tgTwo "A" ∧
      ("B", dfTwoB) ∈ dfsTwo ∧ "n" ∈ tgTwo "B") ∧
    (generate_forecast_table sqId dfsTwo tgTwo 2).countP (pairMatch "A" "x") =
      (if hasMissing (getCol dfTwoA "x") then 0 else 2) ∧
    (generate_forecast_table sqId dfsTwo tgTwo 2).countP (pairMatch "B" "n") =
      (if hasMissing (getCol dfTwoB "n") then 0 else 2) :=
  have hk : (dfsTwo.map Prod.fst).Nodup := by with_unfolding_all decide
  have hcA : (tgTwo "A").Nodup := by with_unfolding_all decide
  have hcB : (tgTwo "B").Nodup := by with_unfolding_all decide
  have hmA : ("A", dfTwoA) ∈ dfsTwo := by with_unfolding_all decide
  have hxA : "x" ∈ tgTwo "A" := by with_unfolding_all decide
  have hmB : ("B", dfTwoB) ∈ dfsTwo := by with_unfolding_all decide
  have hnB : "n" ∈ tgTwo "B" := by with_unfolding_all decide
  ⟨⟨hk, hcA, hcB, hmA, hxA, hmB, hnB⟩,
    missing_column_skipped sqId dfsTwo tgTwo 2 "A" "x" dfTwoA hk hcA hmA hxA,
    missing_column_skipped sqId dfsTwo tgTwo 2 "B" "n" dfTwoB hk hcB hmB hnB⟩

/-- Witness for C8 (amended) at a concrete run. -/
theorem zero_mean_cv_numeric_inf_w :
    rowZeroMean ∈ generate_forecast_table sqId dfsZeroMean tgZ 1 ∧
    ∃ p ∈ dfsZeroMean, ∃ col ∈ tgZ p.1,
      rowZeroMean.category = p.1 ∧ rowZeroMean.metric = col ∧
      (meanY (ptsOf p.2 col) = 0 → rowZeroMean.cv = PyVal.inf) :=
  have hm : rowZeroMean ∈ generate_forecast_table sqId dfsZeroMean tgZ 1 := by
    with_unfolding_all decide
  ⟨hm, zero_mean_cv_numeric_inf sqId dfsZeroMean tgZ 1 rowZeroMean hm⟩

/-- Witness for C9 at a concrete run. -/
theorem percent_from_rounded_integers_w :
    relRowConst10 ∈ assess_forecast_reliability
      (generate_forecast_table sqId dfsConst10 tgM 1) ∧
    ∃ p ∈ dfsConst10, ∃ col ∈ tgM p.1, ∃ k : ℕ, 1 ≤ k ∧ k ≤ 1 ∧
      relRowConst10.toRow.forecast = roundHalfEven
        (forecastValue (fitStats sqId (ptsOf p.2 col)) relRowConst10.toRow.year) ∧
      relRowConst10.toRow.uncertainty = roundHalfEven (uncertaintyFor sqId
        (fitStats sqId (ptsOf p.2 col)).mae
        (forecastValue (fitStats sqId (ptsOf p.2 col)) relRowConst10.toRow.year) k) ∧
      relRowConst10.uncPct = pvRound1
        (pvDivPct relRowConst10.toRow.uncertainty relRowConst10.toRow.forecast) :=
  have hm : relRowConst10 ∈ assess_forecast_reliability
      (generate_forecast_table sqId dfsConst10 tgM 1) := by
    with_unfolding_all decide
  ⟨hm, percent_from_rounded_integers sqId dfsConst10 tgM 1 relRowConst10 hm⟩

/-- Witness for C10 at a concrete two-group run whose groups end in
different years (2025 and 2024), exercising the global last year. -/
theorem forecast_years_are_global_w :
    ((dfsTwo.map Prod.fst).Nodup ∧ (tgTwo "A").Nodup ∧ ("A", dfTwoA) ∈ dfsTwo ∧
      "m" ∈ tgTwo "A" ∧ hasMissing (getCol dfTwoA "m") = false) ∧
    ((generate_forecast_table sqId dfsTwo tgTwo 2).filter (pairMatch "A" "m")).Perm
      ((List.range 2).map fun i : ℕ =>
        resultRow sqId "A" "m" (fitStats sqId (ptsOf dfTwoA "m"))
          (lastYearOf dfsTwo + 1 + (i : ℤ)) (i + 1)) :=
  have hk : (dfsTwo.map Prod.fst).Nodup := by with_unfolding_all decide
  have hc : (tgTwo "A").Nodup := by with_unfolding_all decide
  have hmA : ("A", dfTwoA) ∈ dfsTwo := by with_unfolding_all decide
  have hcm : "m" ∈ tgTwo "A" := by with_unfolding_all decide
  have hnm : hasMissing (getCol dfTwoA "m") = false := by with_unfolding_all decide
  ⟨⟨hk, hc, hmA, hcm, hnm⟩,
    forecast_years_are_global sqId dfsTwo tgTwo 2 "A" "m" dfTwoA hk hc hmA hcm hnm⟩

end Forecast
